import Mathlib

/-!
Shallow embedding of the projection engine of `src/calculations.ts`
(`getVariableCostPerUnit`, `buildScenarioResult`) together with the
data model of `src/types.ts`.  JavaScript numbers are modelled as exact
rationals; the `for` loop of `buildScenarioResult` is modelled as a left
fold over `List.range` of the loop bound, with the loop-carried mutable
variables (`yearly`, `cumulativeCashFlow`, `paybackYear`) gathered in an
explicit state record.  The horizon `years` is an `Int`; the loop
`for (let i = 0; i < years; i++)` runs `years.toNat` times, which is the
behaviour of the source for negative horizons as well.
-/

namespace BusinessCase

/-- `ProductType` from types.ts. -/
inductive ProductType where
  | software
  | hardware
deriving DecidableEq

/-- `GeneralInputs` from types.ts. -/
structure GeneralInputs where
  productName : String
  productType : ProductType
  currency : String
  years : Int
deriving DecidableEq

/-- `CostInputs` from types.ts. -/
structure CostInputs where
  devCapex : ℚ
  launchMarketingCapex : ℚ
  infraCostPerUser : ℚ
  licenseCostPerUser : ℚ
  manufacturingCostPerUnit : ℚ
  shippingCostPerUnit : ℚ
  packagingCostPerUnit : ℚ
  supportCostPerUnit : ℚ
  annualFixedOpex : ℚ
deriving DecidableEq

/-- `MarketInputs` from types.ts. -/
structure MarketInputs where
  tamUnitsPerYear : List ℚ
  samPct : ℚ
  somPct : ℚ
  adoptionPctPerYear : List ℚ
deriving DecidableEq

/-- `RevenueInputs` from types.ts. -/
structure RevenueInputs where
  basePricePerUnit : ℚ
  annualPriceGrowthPct : ℚ
deriving DecidableEq

/-- `Scenario` from types.ts. -/
structure Scenario where
  id : String
  name : String
  adoptionMultiplier : ℚ
  priceMultiplier : ℚ
deriving DecidableEq

/-- `YearlyResult` from types.ts. -/
structure YearlyResult where
  year : Nat
  pricePerUnit : ℚ
  units : ℚ
  revenue : ℚ
  variableCost : ℚ
  grossProfit : ℚ
  grossMarginPct : ℚ
  fixedCost : ℚ
  netProfit : ℚ
  netMarginPct : ℚ
  cumulativeCashFlow : ℚ
deriving DecidableEq

/-- `ScenarioResult` from types.ts.  `paybackYear : number | null` and
`breakEvenUnits : number | null` become `Option`s. -/
structure ScenarioResult where
  scenario : Scenario
  yearly : List YearlyResult
  totalRevenue : ℚ
  totalNetProfit : ℚ
  paybackYear : Option Nat
  breakEvenUnits : Option ℚ
deriving DecidableEq

/-- `getVariableCostPerUnit` from calculations.ts. -/
def getVariableCostPerUnit (productType : ProductType) (cost : CostInputs) : ℚ :=
  match productType with
  | .software =>
      cost.infraCostPerUser +
      cost.licenseCostPerUser +
      cost.supportCostPerUnit
  | .hardware =>
      cost.manufacturingCostPerUnit +
      cost.shippingCostPerUnit +
      cost.packagingCostPerUnit +
      cost.supportCostPerUnit

/-- The loop-carried mutable state of the `for` loop of
`buildScenarioResult`: the accumulated `yearly` array, the running
`cumulativeCashFlow`, and the `paybackYear` latch. -/
structure LoopState where
  yearly : List YearlyResult
  cumulativeCashFlow : ℚ
  paybackYear : Option Nat
deriving DecidableEq

/-- One iteration of the `for` loop of `buildScenarioResult`
(calculations.ts, loop body for year index `i`). -/
def yearStep (cost : CostInputs) (market : MarketInputs) (revenue : RevenueInputs)
    (scenario : Scenario) (unitVariableCost : ℚ) (st : LoopState) (i : Nat) : LoopState :=
  let basePrice :=
    revenue.basePricePerUnit * (1 + revenue.annualPriceGrowthPct / 100) ^ i
  let pricePerUnit := basePrice * scenario.priceMultiplier
  let tamUnits := market.tamUnitsPerYear.getD i 0
  let samUnits := tamUnits * (market.samPct / 100)
  let somUnits := samUnits * (market.somPct / 100)
  let adoptionPct := market.adoptionPctPerYear.getD i 0 / 100
  let baseUnits := somUnits * adoptionPct
  let units := baseUnits * scenario.adoptionMultiplier
  let revenueYear := pricePerUnit * units
  let variableCost := unitVariableCost * units
  let grossProfit := revenueYear - variableCost
  let fixedCost := cost.annualFixedOpex
  let netProfit := grossProfit - fixedCost
  let cumulativeCashFlow := st.cumulativeCashFlow + netProfit
  let paybackYear :=
    if st.paybackYear = none ∧ 0 ≤ cumulativeCashFlow then some (i + 1)
    else st.paybackYear
  let grossMarginPct := if 0 < revenueYear then grossProfit / revenueYear * 100 else 0
  let netMarginPct := if 0 < revenueYear then netProfit / revenueYear * 100 else 0
  { yearly := st.yearly ++
      [{ year := i + 1
         pricePerUnit := pricePerUnit
         units := units
         revenue := revenueYear
         variableCost := variableCost
         grossProfit := grossProfit
         grossMarginPct := grossMarginPct
         fixedCost := fixedCost
         netProfit := netProfit
         netMarginPct := netMarginPct
         cumulativeCashFlow := cumulativeCashFlow }]
    cumulativeCashFlow := cumulativeCashFlow
    paybackYear := paybackYear }

/-- The state of the loop of `buildScenarioResult` after `n` iterations,
starting from the seed state (`yearly = []`,
`cumulativeCashFlow = -(devCapex + launchMarketingCapex)`,
`paybackYear = null`). -/
def runState (general : GeneralInputs) (cost : CostInputs) (market : MarketInputs)
    (revenue : RevenueInputs) (scenario : Scenario) (n : Nat) : LoopState :=
  (List.range n).foldl
    (yearStep cost market revenue scenario (getVariableCostPerUnit general.productType cost))
    { yearly := []
      cumulativeCashFlow := -(cost.devCapex + cost.launchMarketingCapex)
      paybackYear := none }

/-- `buildScenarioResult` from calculations.ts. -/
def buildScenarioResult (general : GeneralInputs) (cost : CostInputs)
    (market : MarketInputs) (revenue : RevenueInputs) (scenario : Scenario) :
    ScenarioResult :=
  let upfrontCapex := cost.devCapex + cost.launchMarketingCapex
  let unitVariableCost := getVariableCostPerUnit general.productType cost
  let final := runState general cost market revenue scenario general.years.toNat
  let totalRevenue := final.yearly.foldl (fun s y => s + y.revenue) 0
  let totalNetProfit := final.yearly.foldl (fun s y => s + y.netProfit) 0
  let contributionMargin := revenue.basePricePerUnit - unitVariableCost
  let breakEvenUnits :=
    if 0 < contributionMargin then some (upfrontCapex / contributionMargin) else none
  { scenario := scenario
    yearly := final.yearly
    totalRevenue := totalRevenue
    totalNetProfit := totalNetProfit
    paybackYear := final.paybackYear
    breakEvenUnits := breakEvenUnits }

/-! Closed-form descriptions of the per-year quantities, used to state and
prove the loop invariant. -/

/-- The scenario-adjusted price of year index `i` (0-based). -/
def priceAt (revenue : RevenueInputs) (scenario : Scenario) (i : Nat) : ℚ :=
  revenue.basePricePerUnit * (1 + revenue.annualPriceGrowthPct / 100) ^ i *
    scenario.priceMultiplier

/-- The scenario-adjusted unit count of year index `i` (0-based). -/
def unitsAt (market : MarketInputs) (scenario : Scenario) (i : Nat) : ℚ :=
  market.tamUnitsPerYear.getD i 0 * (market.samPct / 100) * (market.somPct / 100) *
    (market.adoptionPctPerYear.getD i 0 / 100) * scenario.adoptionMultiplier

/-- The net profit of year index `i` (0-based). -/
def netProfitAt (cost : CostInputs) (market : MarketInputs) (revenue : RevenueInputs)
    (scenario : Scenario) (uvc : ℚ) (i : Nat) : ℚ :=
  priceAt revenue scenario i * unitsAt market scenario i -
    uvc * unitsAt market scenario i - cost.annualFixedOpex

/-- The cumulative cash flow after `n` completed years (`n = 0` is the
seed value before year 1 begins). -/
def cumAt (cost : CostInputs) (market : MarketInputs) (revenue : RevenueInputs)
    (scenario : Scenario) (uvc : ℚ) : Nat → ℚ
  | 0 => -(cost.devCapex + cost.launchMarketingCapex)
  | n + 1 => cumAt cost market revenue scenario uvc n +
      netProfitAt cost market revenue scenario uvc n

/-- The payback-year latch after `n` completed years. -/
def paybackAt (cost : CostInputs) (market : MarketInputs) (revenue : RevenueInputs)
    (scenario : Scenario) (uvc : ℚ) : Nat → Option Nat
  | 0 => none
  | n + 1 =>
      if paybackAt cost market revenue scenario uvc n = none ∧
          0 ≤ cumAt cost market revenue scenario uvc (n + 1) then some (n + 1)
      else paybackAt cost market revenue scenario uvc n

/-- The `YearlyResult` record produced for year index `i` (0-based). -/
def yearEntry (cost : CostInputs) (market : MarketInputs) (revenue : RevenueInputs)
    (scenario : Scenario) (uvc : ℚ) (i : Nat) : YearlyResult :=
  { year := i + 1
    pricePerUnit := priceAt revenue scenario i
    units := unitsAt market scenario i
    revenue := priceAt revenue scenario i * unitsAt market scenario i
    variableCost := uvc * unitsAt market scenario i
    grossProfit := priceAt revenue scenario i * unitsAt market scenario i -
      uvc * unitsAt market scenario i
    grossMarginPct :=
      if 0 < priceAt revenue scenario i * unitsAt market scenario i then
        (priceAt revenue scenario i * unitsAt market scenario i -
          uvc * unitsAt market scenario i) /
          (priceAt revenue scenario i * unitsAt market scenario i) * 100
      else 0
    fixedCost := cost.annualFixedOpex
    netProfit := netProfitAt cost market revenue scenario uvc i
    netMarginPct :=
      if 0 < priceAt revenue scenario i * unitsAt market scenario i then
        netProfitAt cost market revenue scenario uvc i /
          (priceAt revenue scenario i * unitsAt market scenario i) * 100
      else 0
    cumulativeCashFlow := cumAt cost market revenue scenario uvc (i + 1) }

/-! The loop invariant: after `n` iterations the loop state is exactly
described by the closed-form functions. -/

theorem runState_succ (general : GeneralInputs) (cost : CostInputs) (market : MarketInputs)
    (revenue : RevenueInputs) (scenario : Scenario) (n : Nat) :
    runState general cost market revenue scenario (n + 1) =
      yearStep cost market revenue scenario (getVariableCostPerUnit general.productType cost)
        (runState general cost market revenue scenario n) n := by
  rw [runState, List.range_succ, List.foldl_append, List.foldl_cons, List.foldl_nil]
  rfl

theorem runState_eq (general : GeneralInputs) (cost : CostInputs) (market : MarketInputs)
    (revenue : RevenueInputs) (scenario : Scenario) (n : Nat) :
    runState general cost market revenue scenario n =
      { yearly := (List.range n).map
          (yearEntry cost market revenue scenario (getVariableCostPerUnit general.productType cost))
        cumulativeCashFlow :=
          cumAt cost market revenue scenario (getVariableCostPerUnit general.productType cost) n
        paybackYear :=
          paybackAt cost market revenue scenario (getVariableCostPerUnit general.productType cost) n } := by
  induction n with
  | zero => rfl
  | succ n ih =>
      rw [runState_succ, ih]
      simp only [yearStep, yearEntry, List.range_succ, List.map_append, List.map_cons,
        List.map_nil, cumAt, paybackAt, netProfitAt, priceAt, unitsAt]

/-! Projections of `buildScenarioResult` in terms of the closed forms. -/

theorem build_yearly (general : GeneralInputs) (cost : CostInputs) (market : MarketInputs)
    (revenue : RevenueInputs) (scenario : Scenario) :
    (buildScenarioResult general cost market revenue scenario).yearly =
      (List.range general.years.toNat).map
        (yearEntry cost market revenue scenario (getVariableCostPerUnit general.productType cost)) := by
  simp only [buildScenarioResult, runState_eq]

theorem build_paybackYear (general : GeneralInputs) (cost : CostInputs) (market : MarketInputs)
    (revenue : RevenueInputs) (scenario : Scenario) :
    (buildScenarioResult general cost market revenue scenario).paybackYear =
      paybackAt cost market revenue scenario (getVariableCostPerUnit general.productType cost)
        general.years.toNat := by
  simp only [buildScenarioResult, runState_eq]

theorem build_breakEvenUnits (general : GeneralInputs) (cost : CostInputs) (market : MarketInputs)
    (revenue : RevenueInputs) (scenario : Scenario) :
    (buildScenarioResult general cost market revenue scenario).breakEvenUnits =
      if 0 < revenue.basePricePerUnit - getVariableCostPerUnit general.productType cost then
        some ((cost.devCapex + cost.launchMarketingCapex) /
          (revenue.basePricePerUnit - getVariableCostPerUnit general.productType cost))
      else none := by
  simp only [buildScenarioResult]

theorem yearly_length (general : GeneralInputs) (cost : CostInputs) (market : MarketInputs)
    (revenue : RevenueInputs) (scenario : Scenario) :
    (buildScenarioResult general cost market revenue scenario).yearly.length =
      general.years.toNat := by
  simp [build_yearly]

theorem yearly_get (general : GeneralInputs) (cost : CostInputs) (market : MarketInputs)
    (revenue : RevenueInputs) (scenario : Scenario) (k : Nat)
    (hk : k < (buildScenarioResult general cost market revenue scenario).yearly.length) :
    (buildScenarioResult general cost market revenue scenario).yearly.get ⟨k, hk⟩ =
      yearEntry cost market revenue scenario
        (getVariableCostPerUnit general.productType cost) k := by
  have hk' := hk
  rw [yearly_length] at hk'
  simp [build_yearly, List.get_eq_getElem]

/-- Extracting a running sum from a left fold. -/
theorem foldl_add_extract {α : Type} (f : α → ℚ) (l : List α) (a : ℚ) :
    l.foldl (fun s y => s + f y) a = a + (l.map f).sum := by
  induction l generalizing a with
  | nil => simp
  | cons x xs ih => simp [ih (a + f x), add_assoc]

theorem build_totalNetProfit (general : GeneralInputs) (cost : CostInputs) (market : MarketInputs)
    (revenue : RevenueInputs) (scenario : Scenario) :
    (buildScenarioResult general cost market revenue scenario).totalNetProfit =
      ((List.range general.years.toNat).map
        (netProfitAt cost market revenue scenario
          (getVariableCostPerUnit general.productType cost))).sum := by
  simp only [buildScenarioResult, runState_eq]
  rw [foldl_add_extract (fun y : YearlyResult => y.netProfit)]
  simp only [List.map_map, zero_add]
  rfl

theorem cumAt_eq_sum (cost : CostInputs) (market : MarketInputs) (revenue : RevenueInputs)
    (scenario : Scenario) (uvc : ℚ) (n : Nat) :
    cumAt cost market revenue scenario uvc n =
      -(cost.devCapex + cost.launchMarketingCapex) +
        ((List.range n).map (netProfitAt cost market revenue scenario uvc)).sum := by
  induction n with
  | zero => simp [cumAt]
  | succ n ih =>
      rw [cumAt, ih, List.range_succ]
      simp [add_assoc]

/-! Properties of the payback latch. -/

theorem paybackAt_none_iff (cost : CostInputs) (market : MarketInputs) (revenue : RevenueInputs)
    (scenario : Scenario) (uvc : ℚ) (n : Nat) :
    paybackAt cost market revenue scenario uvc n = none ↔
      ∀ i, i < n → cumAt cost market revenue scenario uvc (i + 1) < 0 := by
  induction n with
  | zero => simp [paybackAt]
  | succ n ih =>
      rw [paybackAt]
      by_cases h : paybackAt cost market revenue scenario uvc n = none ∧
          0 ≤ cumAt cost market revenue scenario uvc (n + 1)
      · rw [if_pos h]
        simp only [reduceCtorEq, false_iff]
        intro hall
        exact absurd (hall n (Nat.lt_succ_self n)) (not_lt.mpr h.2)
      · rw [if_neg h, ih]
        constructor
        · intro hall i hi
          rcases Nat.lt_succ_iff_lt_or_eq.mp hi with hi' | rfl
          · exact hall i hi'
          · have h2 : ¬ 0 ≤ cumAt cost market revenue scenario uvc (i + 1) :=
              fun hc => h ⟨ih.mpr hall, hc⟩
            exact not_le.mp h2
        · intro hall i hi
          exact hall i (Nat.lt_succ_of_lt hi)

theorem paybackAt_some (cost : CostInputs) (market : MarketInputs) (revenue : RevenueInputs)
    (scenario : Scenario) (uvc : ℚ) (n p : Nat)
    (hp : paybackAt cost market revenue scenario uvc n = some p) :
    1 ≤ p ∧ p ≤ n ∧ 0 ≤ cumAt cost market revenue scenario uvc p ∧
      ∀ k, k < p - 1 → cumAt cost market revenue scenario uvc (k + 1) < 0 := by
  induction n with
  | zero => simp [paybackAt] at hp
  | succ n ih =>
      rw [paybackAt] at hp
      by_cases h : paybackAt cost market revenue scenario uvc n = none ∧
          0 ≤ cumAt cost market revenue scenario uvc (n + 1)
      · rw [if_pos h] at hp
        have hpn : p = n + 1 := (Option.some_inj.mp hp).symm
        subst hpn
        refine ⟨by omega, le_refl _, h.2, ?_⟩
        intro k hk
        exact (paybackAt_none_iff cost market revenue scenario uvc n).mp h.1 k (by omega)
      · rw [if_neg h] at hp
        obtain ⟨h1, h2, h3, h4⟩ := ih hp
        exact ⟨h1, Nat.le_succ_of_le h2, h3, h4⟩

/-! A concrete input: the worked example of the design document (horizon 2,
software product, devCapex 1000, unit variable cost 1, TAM 1000/year,
funnel 100%/100%, adoption 50%, base price 10, no growth, both scenario
multipliers 1). -/

def exGeneral : GeneralInputs :=
  { productName := "p", productType := .software, currency := "EUR", years := 2 }

def exCost : CostInputs :=
  { devCapex := 1000, launchMarketingCapex := 0, infraCostPerUser := 1,
    licenseCostPerUser := 0, manufacturingCostPerUnit := 0, shippingCostPerUnit := 0,
    packagingCostPerUnit := 0, supportCostPerUnit := 0, annualFixedOpex := 0 }

def exMarket : MarketInputs :=
  { tamUnitsPerYear := [1000, 1000], samPct := 100, somPct := 100,
    adoptionPctPerYear := [50, 50] }

def exRevenue : RevenueInputs :=
  { basePricePerUnit := 10, annualPriceGrowthPct := 0 }

def exScenario : Scenario :=
  { id := "base", name := "Base", adoptionMultiplier := 1, priceMultiplier := 1 }

example : (buildScenarioResult exGeneral exCost exMarket exRevenue exScenario).paybackYear = some 1 := by
  rw [build_paybackYear]
  have h2 : exGeneral.years.toNat = 2 := rfl
  rw [h2]
  norm_num [exGeneral, exCost, exMarket, exRevenue, exScenario, paybackAt, cumAt,
    netProfitAt, priceAt, unitsAt, getVariableCostPerUnit]
  simp

example : (buildScenarioResult exGeneral exCost exMarket exRevenue exScenario).totalNetProfit = 9000 := by
  rw [build_totalNetProfit]
  have h2 : exGeneral.years.toNat = 2 := rfl
  rw [h2]
  norm_num [exGeneral, exCost, exMarket, exRevenue, exScenario, netProfitAt, priceAt,
    unitsAt, getVariableCostPerUnit, List.range_succ]

example : (buildScenarioResult exGeneral exCost exMarket exRevenue exScenario).breakEvenUnits = some (1000 / 9) := by
  rw [build_breakEvenUnits]
  norm_num [exGeneral, exCost, exMarket, exRevenue, exScenario, getVariableCostPerUnit]

example : (buildScenarioResult exGeneral exCost exMarket exRevenue exScenario).yearly.length = 2 := by
  rw [yearly_length]
  simp [exGeneral]

/-- C3: `breakEvenUnits` equals
`(devCapex + launchMarketingCapex) / (basePricePerUnit - unitVariableCost)` when the
contribution margin is positive, and is `none` otherwise (in particular whenever
`basePricePerUnit ≤ unitVariableCost`); it does not depend on the scenario
multipliers, the price growth rate, or the horizon. -/
theorem C3_break_even_units (general : GeneralInputs) (cost : CostInputs)
    (market : MarketInputs) (revenue : RevenueInputs) (scenario : Scenario) :
    (0 < revenue.basePricePerUnit - getVariableCostPerUnit general.productType cost →
      (buildScenarioResult general cost market revenue scenario).breakEvenUnits =
        some ((cost.devCapex + cost.launchMarketingCapex) /
          (revenue.basePricePerUnit - getVariableCostPerUnit general.productType cost))) ∧
    (revenue.basePricePerUnit - getVariableCostPerUnit general.productType cost ≤ 0 →
      (buildScenarioResult general cost market revenue scenario).breakEvenUnits = none) ∧
    (revenue.basePricePerUnit ≤ getVariableCostPerUnit general.productType cost →
      (buildScenarioResult general cost market revenue scenario).breakEvenUnits = none) ∧
    ∀ (years₂ : Int) (growth₂ : ℚ) (scenario₂ : Scenario),
      (buildScenarioResult { general with years := years₂ } cost market
          { revenue with annualPriceGrowthPct := growth₂ } scenario₂).breakEvenUnits =
        (buildScenarioResult general cost market revenue scenario).breakEvenUnits := by
  refine ⟨fun h => ?_, fun h => ?_, fun h => ?_, fun y₂ g₂ s₂ => ?_⟩
  · rw [build_breakEvenUnits, if_pos h]
  · rw [build_breakEvenUnits, if_neg (not_lt.mpr h)]
  · rw [build_breakEvenUnits, if_neg (not_lt.mpr (sub_nonpos.mpr h))]
  · rw [build_breakEvenUnits, build_breakEvenUnits]

/-- C3 witness: on the worked example the contribution margin `10 - 1` is
positive and the break-even units are `1000 / 9`. -/
theorem C3_break_even_units_witness :
    0 < exRevenue.basePricePerUnit - getVariableCostPerUnit exGeneral.productType exCost ∧
    (buildScenarioResult exGeneral exCost exMarket exRevenue exScenario).breakEvenUnits =
      some ((exCost.devCapex + exCost.launchMarketingCapex) /
        (exRevenue.basePricePerUnit - getVariableCostPerUnit exGeneral.productType exCost)) :=
  ⟨by norm_num [exRevenue, exCost, exGeneral, getVariableCostPerUnit],
   (C3_break_even_units exGeneral exCost exMarket exRevenue exScenario).1
     (by norm_num [exRevenue, exCost, exGeneral, getVariableCostPerUnit])⟩

/-- C4: the per-unit variable cost is determined by product type
(software: infra + license + support; hardware: manufacturing + shipping +
packaging + support) and every year of one call has
`variableCost = unitVariableCost * units` for that single constant. -/
theorem C4_variable_cost (general : GeneralInputs) (cost : CostInputs)
    (market : MarketInputs) (revenue : RevenueInputs) (scenario : Scenario) :
    (∀ co : CostInputs, getVariableCostPerUnit .software co =
        co.infraCostPerUser + co.licenseCostPerUser + co.supportCostPerUnit) ∧
    (∀ co : CostInputs, getVariableCostPerUnit .hardware co =
        co.manufacturingCostPerUnit + co.shippingCostPerUnit +
          co.packagingCostPerUnit + co.supportCostPerUnit) ∧
    ∀ k (hk : k < (buildScenarioResult general cost market revenue scenario).yearly.length),
      ((buildScenarioResult general cost market revenue scenario).yearly.get
          ⟨k, hk⟩).variableCost =
        getVariableCostPerUnit general.productType cost *
          ((buildScenarioResult general cost market revenue scenario).yearly.get
            ⟨k, hk⟩).units := by
  refine ⟨fun co => rfl, fun co => rfl, ?_⟩
  intro k hk
  rw [yearly_get]
  rfl

/-- C4 witness: on the worked example, year 1 has
`variableCost = 1 * units`. -/
theorem C4_variable_cost_witness :
    ∃ hk : 0 < (buildScenarioResult exGeneral exCost exMarket exRevenue exScenario).yearly.length,
      ((buildScenarioResult exGeneral exCost exMarket exRevenue exScenario).yearly.get
          ⟨0, hk⟩).variableCost =
        getVariableCostPerUnit exGeneral.productType exCost *
          ((buildScenarioResult exGeneral exCost exMarket exRevenue exScenario).yearly.get
            ⟨0, hk⟩).units := by
  have hk : 0 < (buildScenarioResult exGeneral exCost exMarket exRevenue exScenario).yearly.length := by
    rw [yearly_length]
    decide
  exact ⟨hk, (C4_variable_cost exGeneral exCost exMarket exRevenue exScenario).2.2 0 hk⟩

/-- C5: for a non-negative integer horizon the yearly sequence has exactly
`horizon` entries and entry `k` (0-based) carries `year = k + 1`. -/
theorem C5_yearly_shape (general : GeneralInputs) (cost : CostInputs)
    (market : MarketInputs) (revenue : RevenueInputs) (scenario : Scenario)
    (h : 0 ≤ general.years) :
    ((buildScenarioResult general cost market revenue scenario).yearly.length : Int) =
      general.years ∧
    ∀ k (hk : k < (buildScenarioResult general cost market revenue scenario).yearly.length),
      ((buildScenarioResult general cost market revenue scenario).yearly.get ⟨k, hk⟩).year =
        k + 1 := by
  constructor
  · rw [yearly_length]
    exact_mod_cast Int.toNat_of_nonneg h
  · intro k hk
    rw [yearly_get]
    rfl

/-- C5 witness: the worked example has horizon 2 ≥ 0, two yearly entries,
and the first entry carries year number 1. -/
theorem C5_yearly_shape_witness :
    (0 : Int) ≤ exGeneral.years ∧
    (((buildScenarioResult exGeneral exCost exMarket exRevenue exScenario).yearly.length : Int) =
        exGeneral.years ∧
      ∀ k (hk : k < (buildScenarioResult exGeneral exCost exMarket exRevenue exScenario).yearly.length),
        ((buildScenarioResult exGeneral exCost exMarket exRevenue exScenario).yearly.get
            ⟨k, hk⟩).year = k + 1) :=
  ⟨by decide,
   C5_yearly_shape exGeneral exCost exMarket exRevenue exScenario (by decide)⟩

/-- C6: per year, if revenue is positive then the margin percentages are the
profit/revenue ratios times 100, and otherwise (in particular at zero
revenue) both are exactly 0. -/
theorem C6_margin_guard (general : GeneralInputs) (cost : CostInputs)
    (market : MarketInputs) (revenue : RevenueInputs) (scenario : Scenario)
    (k : Nat) (hk : k < (buildScenarioResult general cost market revenue scenario).yearly.length) :
    (0 < ((buildScenarioResult general cost market revenue scenario).yearly.get ⟨k, hk⟩).revenue →
      ((buildScenarioResult general cost market revenue scenario).yearly.get ⟨k, hk⟩).grossMarginPct =
        ((buildScenarioResult general cost market revenue scenario).yearly.get ⟨k, hk⟩).grossProfit /
          ((buildScenarioResult general cost market revenue scenario).yearly.get ⟨k, hk⟩).revenue * 100 ∧
      ((buildScenarioResult general cost market revenue scenario).yearly.get ⟨k, hk⟩).netMarginPct =
        ((buildScenarioResult general cost market revenue scenario).yearly.get ⟨k, hk⟩).netProfit /
          ((buildScenarioResult general cost market revenue scenario).yearly.get ⟨k, hk⟩).revenue * 100) ∧
    (((buildScenarioResult general cost market revenue scenario).yearly.get ⟨k, hk⟩).revenue ≤ 0 →
      ((buildScenarioResult general cost market revenue scenario).yearly.get ⟨k, hk⟩).grossMarginPct = 0 ∧
      ((buildScenarioResult general cost market revenue scenario).yearly.get ⟨k, hk⟩).netMarginPct = 0) := by
  rw [yearly_get]
  simp only [yearEntry]
  constructor
  · intro h
    rw [if_pos h, if_pos h]
    exact ⟨rfl, rfl⟩
  · intro h
    rw [if_neg (not_lt.mpr h), if_neg (not_lt.mpr h)]
    exact ⟨rfl, rfl⟩

/-- C6 witness: year 1 of the worked example has positive revenue and
margins computed from it; the theorem applies at index 0. -/
theorem C6_margin_guard_witness :
    ∃ hk : 0 < (buildScenarioResult exGeneral exCost exMarket exRevenue exScenario).yearly.length,
      (0 < ((buildScenarioResult exGeneral exCost exMarket exRevenue exScenario).yearly.get ⟨0, hk⟩).revenue →
        ((buildScenarioResult exGeneral exCost exMarket exRevenue exScenario).yearly.get ⟨0, hk⟩).grossMarginPct =
          ((buildScenarioResult exGeneral exCost exMarket exRevenue exScenario).yearly.get ⟨0, hk⟩).grossProfit /
            ((buildScenarioResult exGeneral exCost exMarket exRevenue exScenario).yearly.get ⟨0, hk⟩).revenue * 100 ∧
        ((buildScenarioResult exGeneral exCost exMarket exRevenue exScenario).yearly.get ⟨0, hk⟩).netMarginPct =
          ((buildScenarioResult exGeneral exCost exMarket exRevenue exScenario).yearly.get ⟨0, hk⟩).netProfit /
            ((buildScenarioResult exGeneral exCost exMarket exRevenue exScenario).yearly.get ⟨0, hk⟩).revenue * 100) ∧
      (((buildScenarioResult exGeneral exCost exMarket exRevenue exScenario).yearly.get ⟨0, hk⟩).revenue ≤ 0 →
        ((buildScenarioResult exGeneral exCost exMarket exRevenue exScenario).yearly.get ⟨0, hk⟩).grossMarginPct = 0 ∧
        ((buildScenarioResult exGeneral exCost exMarket exRevenue exScenario).yearly.get ⟨0, hk⟩).netMarginPct = 0) := by
  have hk : 0 < (buildScenarioResult exGeneral exCost exMarket exRevenue exScenario).yearly.length := by
    rw [yearly_length]
    decide
  exact ⟨hk, C6_margin_guard exGeneral exCost exMarket exRevenue exScenario 0 hk⟩

/-- C8: a year index at or beyond the end of `tamUnitsPerYear` or
`adoptionPctPerYear` defaults the missing entry to zero, so that year has
`units = 0`, `revenue = 0` and `netProfit = -annualFixedOpex`. -/
theorem C8_missing_entries_default (general : GeneralInputs) (cost : CostInputs)
    (market : MarketInputs) (revenue : RevenueInputs) (scenario : Scenario)
    (k : Nat) (hk : k < (buildScenarioResult general cost market revenue scenario).yearly.length)
    (h : market.tamUnitsPerYear.length ≤ k ∨ market.adoptionPctPerYear.length ≤ k) :
    ((buildScenarioResult general cost market revenue scenario).yearly.get ⟨k, hk⟩).units = 0 ∧
    ((buildScenarioResult general cost market revenue scenario).yearly.get ⟨k, hk⟩).revenue = 0 ∧
    ((buildScenarioResult general cost market revenue scenario).yearly.get ⟨k, hk⟩).netProfit =
      -cost.annualFixedOpex := by
  rw [yearly_get]
  have hu : unitsAt market scenario k = 0 := by
    rcases h with h | h
    · simp [unitsAt, List.getD, List.getElem?_eq_none h]
    · simp [unitsAt, List.getD, List.getElem?_eq_none h]
  refine ⟨hu, ?_, ?_⟩
  · show priceAt revenue scenario k * unitsAt market scenario k = 0
    rw [hu, mul_zero]
  · show netProfitAt cost market revenue scenario
      (getVariableCostPerUnit general.productType cost) k = -cost.annualFixedOpex
    rw [netProfitAt, hu]
    ring

/-- C8 witness: with horizon 2 but singleton per-year inputs, year 2 (index 1)
defaults to zero units and revenue and to `netProfit = -annualFixedOpex`. -/
theorem C8_missing_entries_default_witness :
    ∃ hk : 1 < (buildScenarioResult exGeneral exCost
        { tamUnitsPerYear := [1000], samPct := 100, somPct := 100,
          adoptionPctPerYear := [50] } exRevenue exScenario).yearly.length,
      ((buildScenarioResult exGeneral exCost
          { tamUnitsPerYear := [1000], samPct := 100, somPct := 100,
            adoptionPctPerYear := [50] } exRevenue exScenario).yearly.get ⟨1, hk⟩).units = 0 ∧
      ((buildScenarioResult exGeneral exCost
          { tamUnitsPerYear := [1000], samPct := 100, somPct := 100,
            adoptionPctPerYear := [50] } exRevenue exScenario).yearly.get ⟨1, hk⟩).revenue = 0 ∧
      ((buildScenarioResult exGeneral exCost
          { tamUnitsPerYear := [1000], samPct := 100, somPct := 100,
            adoptionPctPerYear := [50] } exRevenue exScenario).yearly.get ⟨1, hk⟩).netProfit =
        -exCost.annualFixedOpex := by
  have hk : 1 < (buildScenarioResult exGeneral exCost
      { tamUnitsPerYear := [1000], samPct := 100, somPct := 100,
        adoptionPctPerYear := [50] } exRevenue exScenario).yearly.length := by
    rw [yearly_length]
    decide
  exact ⟨hk, C8_missing_entries_default exGeneral exCost _ exRevenue exScenario 1 hk
    (Or.inl (by decide))⟩

/-- C10: a present `paybackYear` is an integer between 1 and the horizon;
for a non-positive horizon it is always absent, even when the seeded
cumulative cash flow is already non-negative. -/
theorem C10_payback_bounds (general : GeneralInputs) (cost : CostInputs)
    (market : MarketInputs) (revenue : RevenueInputs) (scenario : Scenario) :
    (∀ p, (buildScenarioResult general cost market revenue scenario).paybackYear = some p →
      1 ≤ p ∧ (p : Int) ≤ general.years) ∧
    (general.years ≤ 0 →
      (buildScenarioResult general cost market revenue scenario).paybackYear = none) := by
  constructor
  · intro p hp
    rw [build_paybackYear] at hp
    obtain ⟨h1, h2, -, -⟩ := paybackAt_some _ _ _ _ _ _ _ hp
    exact ⟨h1, by omega⟩
  · intro h
    rw [build_paybackYear]
    have h0 : general.years.toNat = 0 := by omega
    rw [h0]
    rfl

/-- C10 witness: on the worked example the payback year 1 satisfies
`1 ≤ 1` and `1 ≤ horizon = 2`; the bound is obtained by applying the
theorem to the recorded payback year. -/
theorem C10_payback_bounds_witness :
    (buildScenarioResult exGeneral exCost exMarket exRevenue exScenario).paybackYear = some 1 ∧
    (1 ≤ 1 ∧ ((1 : Nat) : Int) ≤ exGeneral.years) := by
  have hp : (buildScenarioResult exGeneral exCost exMarket exRevenue exScenario).paybackYear =
      some 1 := by
    rw [build_paybackYear]
    have h2 : exGeneral.years.toNat = 2 := rfl
    rw [h2]
    norm_num [exGeneral, exCost, exMarket, exRevenue, exScenario, paybackAt, cumAt,
      netProfitAt, priceAt, unitsAt, getVariableCostPerUnit]
    simp
  exact ⟨hp, (C10_payback_bounds exGeneral exCost exMarket exRevenue exScenario).1 1 hp⟩

/-- C1: a present `paybackYear = p` is the first crossing of the cumulative
cash flow: entry `p-1` has cumulative cash flow ≥ 0 and every earlier entry
has cumulative cash flow < 0 (so a later year can never overwrite it). -/
theorem C1_payback_first_crossing (general : GeneralInputs) (cost : CostInputs)
    (market : MarketInputs) (revenue : RevenueInputs) (scenario : Scenario) (p : Nat)
    (hp : (buildScenarioResult general cost market revenue scenario).paybackYear = some p) :
    ∃ h : p - 1 < (buildScenarioResult general cost market revenue scenario).yearly.length,
      0 ≤ ((buildScenarioResult general cost market revenue scenario).yearly.get
        ⟨p - 1, h⟩).cumulativeCashFlow ∧
      ∀ k (hk : k < p - 1),
        ((buildScenarioResult general cost market revenue scenario).yearly.get
          ⟨k, by omega⟩).cumulativeCashFlow < 0 := by
  rw [build_paybackYear] at hp
  obtain ⟨h1, h2, h3, h4⟩ := paybackAt_some _ _ _ _ _ _ _ hp
  have hlen : (buildScenarioResult general cost market revenue scenario).yearly.length =
      general.years.toNat := yearly_length general cost market revenue scenario
  have hb : p - 1 < (buildScenarioResult general cost market revenue scenario).yearly.length := by
    omega
  refine ⟨hb, ?_, ?_⟩
  · rw [yearly_get]
    show 0 ≤ cumAt cost market revenue scenario
      (getVariableCostPerUnit general.productType cost) (p - 1 + 1)
    have hpp : p - 1 + 1 = p := by omega
    rw [hpp]
    exact h3
  · intro k hk
    rw [yearly_get]
    exact h4 k hk

/-- C1 witness: on the worked example the payback year is 1, entry 0 has
cumulative cash flow 3500 ≥ 0, and there is no earlier entry. -/
theorem C1_payback_first_crossing_witness :
    (buildScenarioResult exGeneral exCost exMarket exRevenue exScenario).paybackYear = some 1 ∧
    ∃ h : 1 - 1 < (buildScenarioResult exGeneral exCost exMarket exRevenue exScenario).yearly.length,
      0 ≤ ((buildScenarioResult exGeneral exCost exMarket exRevenue exScenario).yearly.get
        ⟨1 - 1, h⟩).cumulativeCashFlow ∧
      ∀ k (hk : k < 1 - 1),
        ((buildScenarioResult exGeneral exCost exMarket exRevenue exScenario).yearly.get
          ⟨k, by omega⟩).cumulativeCashFlow < 0 := by
  have hp : (buildScenarioResult exGeneral exCost exMarket exRevenue exScenario).paybackYear =
      some 1 := by
    rw [build_paybackYear]
    have h2 : exGeneral.years.toNat = 2 := rfl
    rw [h2]
    norm_num [exGeneral, exCost, exMarket, exRevenue, exScenario, paybackAt, cumAt,
      netProfitAt, priceAt, unitsAt, getVariableCostPerUnit]
    simp
  exact ⟨hp, C1_payback_first_crossing exGeneral exCost exMarket exRevenue exScenario 1 hp⟩

/-- The cumulative cash flow entries are non-decreasing when every net
profit inside the horizon is non-negative. -/
theorem cumAt_mono (cost : CostInputs) (market : MarketInputs) (revenue : RevenueInputs)
    (scenario : Scenario) (uvc : ℚ) (n : Nat)
    (hnp : ∀ i, i < n → 0 ≤ netProfitAt cost market revenue scenario uvc i)
    (j k : Nat) (hjk : j ≤ k) (hk : k < n) :
    cumAt cost market revenue scenario uvc (j + 1) ≤
      cumAt cost market revenue scenario uvc (k + 1) := by
  induction k with
  | zero =>
      have hj : j = 0 := Nat.le_zero.mp hjk
      rw [hj]
  | succ k ih =>
      rcases Nat.le_succ_iff_eq_or_le.mp hjk with hj | hj
      · rw [hj]
      · calc cumAt cost market revenue scenario uvc (j + 1) ≤
              cumAt cost market revenue scenario uvc (k + 1) :=
              ih hj (Nat.lt_of_succ_lt hk)
          _ ≤ cumAt cost market revenue scenario uvc (k + 1 + 1) := by
              conv_rhs => rw [cumAt]
              have := hnp (k + 1) hk
              linarith

/-- C2: for a horizon of at least one year, the last entry's cumulative cash
flow equals `-(devCapex + launchMarketingCapex) + totalNetProfit`, and if
every year's net profit is non-negative the cumulative cash flow sequence is
monotonically non-decreasing. -/
theorem C2_cumulative_cash_flow (general : GeneralInputs) (cost : CostInputs)
    (market : MarketInputs) (revenue : RevenueInputs) (scenario : Scenario)
    (h : 1 ≤ general.years) :
    ∃ hne : 0 < (buildScenarioResult general cost market revenue scenario).yearly.length,
      ((buildScenarioResult general cost market revenue scenario).yearly.get
          ⟨(buildScenarioResult general cost market revenue scenario).yearly.length - 1,
            by omega⟩).cumulativeCashFlow =
        -(cost.devCapex + cost.launchMarketingCapex) +
          (buildScenarioResult general cost market revenue scenario).totalNetProfit ∧
      ((∀ y ∈ (buildScenarioResult general cost market revenue scenario).yearly,
          0 ≤ y.netProfit) →
        ∀ j k (hjk : j ≤ k)
          (hk : k < (buildScenarioResult general cost market revenue scenario).yearly.length),
          ((buildScenarioResult general cost market revenue scenario).yearly.get
              ⟨j, by omega⟩).cumulativeCashFlow ≤
            ((buildScenarioResult general cost market revenue scenario).yearly.get
              ⟨k, hk⟩).cumulativeCashFlow) := by
  have hlen : (buildScenarioResult general cost market revenue scenario).yearly.length =
      general.years.toNat := yearly_length general cost market revenue scenario
  have hne : 0 < (buildScenarioResult general cost market revenue scenario).yearly.length := by
    omega
  refine ⟨hne, ?_, ?_⟩
  · rw [yearly_get, build_totalNetProfit]
    show cumAt cost market revenue scenario (getVariableCostPerUnit general.productType cost)
        ((buildScenarioResult general cost market revenue scenario).yearly.length - 1 + 1) = _
    have hm : (buildScenarioResult general cost market revenue scenario).yearly.length - 1 + 1 =
        general.years.toNat := by omega
    rw [hm, cumAt_eq_sum]
  · intro hnp j k hjk hk
    have hnp' : ∀ i, i < general.years.toNat →
        0 ≤ netProfitAt cost market revenue scenario
          (getVariableCostPerUnit general.productType cost) i := by
      intro i hi
      have hmem : yearEntry cost market revenue scenario
          (getVariableCostPerUnit general.productType cost) i ∈
          (buildScenarioResult general cost market revenue scenario).yearly := by
        rw [build_yearly]
        exact List.mem_map_of_mem _ (List.mem_range.mpr hi)
      exact hnp _ hmem
    rw [yearly_get, yearly_get]
    show cumAt cost market revenue scenario
        (getVariableCostPerUnit general.productType cost) (j + 1) ≤
      cumAt cost market revenue scenario
        (getVariableCostPerUnit general.productType cost) (k + 1)
    exact cumAt_mono cost market revenue scenario _ general.years.toNat hnp' j k hjk (by omega)

/-- C2 witness: on the worked example (horizon 2) the last cumulative cash
flow is `-1000 + 9000 = 8000` and every net profit is non-negative, so the
cumulative sequence is non-decreasing. -/
theorem C2_cumulative_cash_flow_witness :
    (1 : Int) ≤ exGeneral.years ∧
    ∃ hne : 0 < (buildScenarioResult exGeneral exCost exMarket exRevenue exScenario).yearly.length,
      ((buildScenarioResult exGeneral exCost exMarket exRevenue exScenario).yearly.get
          ⟨(buildScenarioResult exGeneral exCost exMarket exRevenue exScenario).yearly.length - 1,
            by omega⟩).cumulativeCashFlow =
        -(exCost.devCapex + exCost.launchMarketingCapex) +
          (buildScenarioResult exGeneral exCost exMarket exRevenue exScenario).totalNetProfit ∧
      ((∀ y ∈ (buildScenarioResult exGeneral exCost exMarket exRevenue exScenario).yearly,
          0 ≤ y.netProfit) →
        ∀ j k (hjk : j ≤ k)
          (hk : k < (buildScenarioResult exGeneral exCost exMarket exRevenue exScenario).yearly.length),
          ((buildScenarioResult exGeneral exCost exMarket exRevenue exScenario).yearly.get
              ⟨j, by omega⟩).cumulativeCashFlow ≤
            ((buildScenarioResult exGeneral exCost exMarket exRevenue exScenario).yearly.get
              ⟨k, hk⟩).cumulativeCashFlow) :=
  ⟨by decide, C2_cumulative_cash_flow exGeneral exCost exMarket exRevenue exScenario (by decide)⟩

/-! Congruence of the result in the cost record: `buildScenarioResult` reads
the cost record only through the selected variable cost, the two upfront
capex fields and the annual fixed opex. -/

theorem build_totalRevenue (general : GeneralInputs) (cost : CostInputs) (market : MarketInputs)
    (revenue : RevenueInputs) (scenario : Scenario) :
    (buildScenarioResult general cost market revenue scenario).totalRevenue =
      ((List.range general.years.toNat).map
        (fun i => priceAt revenue scenario i * unitsAt market scenario i)).sum := by
  simp only [buildScenarioResult, runState_eq]
  rw [foldl_add_extract (fun y : YearlyResult => y.revenue)]
  simp only [List.map_map, zero_add]
  rfl

theorem netProfitAt_congr (cost cost' : CostInputs) (market : MarketInputs)
    (revenue : RevenueInputs) (scenario : Scenario) (uvc : ℚ)
    (h4 : cost'.annualFixedOpex = cost.annualFixedOpex) (i : Nat) :
    netProfitAt cost' market revenue scenario uvc i =
      netProfitAt cost market revenue scenario uvc i := by
  rw [netProfitAt, netProfitAt, h4]

theorem cumAt_congr (cost cost' : CostInputs) (market : MarketInputs)
    (revenue : RevenueInputs) (scenario : Scenario) (uvc : ℚ)
    (h2 : cost'.devCapex = cost.devCapex)
    (h3 : cost'.launchMarketingCapex = cost.launchMarketingCapex)
    (h4 : cost'.annualFixedOpex = cost.annualFixedOpex) (n : Nat) :
    cumAt cost' market revenue scenario uvc n =
      cumAt cost market revenue scenario uvc n := by
  induction n with
  | zero => rw [cumAt, cumAt, h2, h3]
  | succ n ih =>
      rw [cumAt, cumAt, ih, netProfitAt_congr cost cost' market revenue scenario uvc h4]

theorem paybackAt_congr (cost cost' : CostInputs) (market : MarketInputs)
    (revenue : RevenueInputs) (scenario : Scenario) (uvc : ℚ)
    (h2 : cost'.devCapex = cost.devCapex)
    (h3 : cost'.launchMarketingCapex = cost.launchMarketingCapex)
    (h4 : cost'.annualFixedOpex = cost.annualFixedOpex) (n : Nat) :
    paybackAt cost' market revenue scenario uvc n =
      paybackAt cost market revenue scenario uvc n := by
  induction n with
  | zero => rfl
  | succ n ih =>
      rw [paybackAt, paybackAt, ih,
        cumAt_congr cost cost' market revenue scenario uvc h2 h3 h4]

theorem yearEntry_congr (cost cost' : CostInputs) (market : MarketInputs)
    (revenue : RevenueInputs) (scenario : Scenario) (uvc : ℚ)
    (h2 : cost'.devCapex = cost.devCapex)
    (h3 : cost'.launchMarketingCapex = cost.launchMarketingCapex)
    (h4 : cost'.annualFixedOpex = cost.annualFixedOpex) (i : Nat) :
    yearEntry cost' market revenue scenario uvc i =
      yearEntry cost market revenue scenario uvc i := by
  rw [yearEntry, yearEntry, h4,
    netProfitAt_congr cost cost' market revenue scenario uvc h4,
    cumAt_congr cost cost' market revenue scenario uvc h2 h3 h4]

theorem scenarioResult_ext (a b : ScenarioResult) (h1 : a.scenario = b.scenario)
    (h2 : a.yearly = b.yearly) (h3 : a.totalRevenue = b.totalRevenue)
    (h4 : a.totalNetProfit = b.totalNetProfit) (h5 : a.paybackYear = b.paybackYear)
    (h6 : a.breakEvenUnits = b.breakEvenUnits) : a = b := by
  cases a
  cases b
  simp_all

theorem buildScenarioResult_cost_congr (general : GeneralInputs) (cost cost' : CostInputs)
    (market : MarketInputs) (revenue : RevenueInputs) (scenario : Scenario)
    (h1 : getVariableCostPerUnit general.productType cost' =
      getVariableCostPerUnit general.productType cost)
    (h2 : cost'.devCapex = cost.devCapex)
    (h3 : cost'.launchMarketingCapex = cost.launchMarketingCapex)
    (h4 : cost'.annualFixedOpex = cost.annualFixedOpex) :
    buildScenarioResult general cost' market revenue scenario =
      buildScenarioResult general cost market revenue scenario := by
  refine scenarioResult_ext _ _ rfl ?_ ?_ ?_ ?_ ?_
  · rw [build_yearly, build_yearly, h1]
    exact List.map_congr_left fun i _ =>
      yearEntry_congr cost cost' market revenue scenario _ h2 h3 h4 i
  · rw [build_totalRevenue, build_totalRevenue]
  · rw [build_totalNetProfit, build_totalNetProfit, h1]
    congr 1
    exact List.map_congr_left fun i _ =>
      netProfitAt_congr cost cost' market revenue scenario _ h4 i
  · rw [build_paybackYear, build_paybackYear, h1,
      paybackAt_congr cost cost' market revenue scenario _ h2 h3 h4]
  · rw [build_breakEvenUnits, build_breakEvenUnits, h1, h2, h3]

/-- C9: two-run noninterference of the non-selected cost path: for a
software product the hardware-only cost fields (manufacturing, shipping,
packaging) never influence the result, and for a hardware product the
software-only cost fields (infra, license) never influence it. -/
theorem C9_cost_noninterference (general : GeneralInputs) (cost : CostInputs)
    (market : MarketInputs) (revenue : RevenueInputs) (scenario : Scenario)
    (mc sc pc ic lc : ℚ) :
    (general.productType = .software →
      buildScenarioResult general
        { cost with
          manufacturingCostPerUnit := mc
          shippingCostPerUnit := sc
          packagingCostPerUnit := pc } market revenue scenario =
      buildScenarioResult general cost market revenue scenario) ∧
    (general.productType = .hardware →
      buildScenarioResult general
        { cost with infraCostPerUser := ic, licenseCostPerUser := lc }
        market revenue scenario =
      buildScenarioResult general cost market revenue scenario) := by
  constructor
  · intro h
    exact buildScenarioResult_cost_congr general cost _ market revenue scenario
      (by rw [h]; rfl) rfl rfl rfl
  · intro h
    exact buildScenarioResult_cost_congr general cost _ market revenue scenario
      (by rw [h]; rfl) rfl rfl rfl

/-- C9 witness: on the worked software-product example, changing the three
hardware cost fields to 7, 8, 9 leaves the entire result unchanged. -/
theorem C9_cost_noninterference_witness :
    exGeneral.productType = ProductType.software ∧
    buildScenarioResult exGeneral
      { exCost with
        manufacturingCostPerUnit := 7
        shippingCostPerUnit := 8
        packagingCostPerUnit := 9 } exMarket exRevenue exScenario =
    buildScenarioResult exGeneral exCost exMarket exRevenue exScenario :=
  ⟨rfl, (C9_cost_noninterference exGeneral exCost exMarket exRevenue exScenario
    7 8 9 0 0).1 rfl⟩

/-- C7: each year's price, units and revenue are the baseline figures (same
call with both multipliers 1) scaled by the price multiplier, the adoption
multiplier, and their product respectively; with both multipliers 1 the
yearly figures reproduce the baseline exactly. -/
theorem C7_scenario_scaling (general : GeneralInputs) (cost : CostInputs)
    (market : MarketInputs) (revenue : RevenueInputs) (scenario : Scenario) :
    (buildScenarioResult general cost market revenue scenario).yearly.length =
      (buildScenarioResult general cost market revenue
        ⟨scenario.id, scenario.name, 1, 1⟩).yearly.length ∧
    (∀ k : Nat,
      ((buildScenarioResult general cost market revenue scenario).yearly[k]?).map
          YearlyResult.pricePerUnit =
        ((buildScenarioResult general cost market revenue
            ⟨scenario.id, scenario.name, 1, 1⟩).yearly[k]?).map
          (fun y => scenario.priceMultiplier * y.pricePerUnit) ∧
      ((buildScenarioResult general cost market revenue scenario).yearly[k]?).map
          YearlyResult.units =
        ((buildScenarioResult general cost market revenue
            ⟨scenario.id, scenario.name, 1, 1⟩).yearly[k]?).map
          (fun y => scenario.adoptionMultiplier * y.units) ∧
      ((buildScenarioResult general cost market revenue scenario).yearly[k]?).map
          YearlyResult.revenue =
        ((buildScenarioResult general cost market revenue
            ⟨scenario.id, scenario.name, 1, 1⟩).yearly[k]?).map
          (fun y => scenario.priceMultiplier * scenario.adoptionMultiplier * y.revenue)) ∧
    (scenario.priceMultiplier = 1 → scenario.adoptionMultiplier = 1 →
      (buildScenarioResult general cost market revenue scenario).yearly =
        (buildScenarioResult general cost market revenue
          ⟨scenario.id, scenario.name, 1, 1⟩).yearly) := by
  refine ⟨?_, ?_, ?_⟩
  · rw [yearly_length, yearly_length]
  · intro k
    rw [build_yearly, build_yearly]
    by_cases hk : k < general.years.toNat
    · refine ⟨?_, ?_, ?_⟩ <;>
        · simp only [List.getElem?_map, List.getElem?_range hk, Option.map_some', Option.some.injEq,
            yearEntry, priceAt, unitsAt]
          ring
    · have hnone : (List.range general.years.toNat)[k]? = none := by
        rw [List.getElem?_eq_none]
        simpa using not_lt.mp hk
      simp [hnone]
  · intro hpm ham
    have hs : (⟨scenario.id, scenario.name, 1, 1⟩ : Scenario) = scenario := by
      obtain ⟨i, n, a, p⟩ := scenario
      simp only at hpm ham
      rw [hpm, ham]
    rw [hs]

/-- C7 witness: the worked example's scenario has both multipliers equal
to 1, and its yearly figures coincide with the baseline run. -/
theorem C7_scenario_scaling_witness :
    exScenario.priceMultiplier = 1 ∧ exScenario.adoptionMultiplier = 1 ∧
    (buildScenarioResult exGeneral exCost exMarket exRevenue exScenario).yearly =
      (buildScenarioResult exGeneral exCost exMarket exRevenue
        ⟨exScenario.id, exScenario.name, 1, 1⟩).yearly :=
  ⟨rfl, rfl,
    (C7_scenario_scaling exGeneral exCost exMarket exRevenue exScenario).2.2 rfl rfl⟩

end BusinessCase
